import Mathlib

/-
Shallow embedding of the migration core of the proxmox-migrator repository.
The embedded code lives in disk_service.py (progress tracker, speed and ETA
formatting, activity log, disk space check, the two disk transfer paths) and
migration_service.py (free VM id search, disk selection, size derivation).
Python floats are modelled as rationals, Python ints as Nat or Int, Python
dicts that are iterated in insertion order as association lists, and remote
side effects as explicit environment records plus operation traces.
-/

/-! ### Python string primitives

Lean core string functions such as String.splitOn do not reduce inside the
kernel, so the Python string operations used by the source are re-implemented
here over lists of characters by structural recursion. -/

/-- Python s.startswith(p) on explicit character lists. -/
def chars_startsWith : List Char → List Char → Bool
  | _, [] => true
  | [], _ :: _ => false
  | c :: cs, p :: ps => c == p && chars_startsWith cs ps

/-- Python substring containment (p in s) on explicit character lists. -/
def chars_contains (p : List Char) : List Char → Bool
  | [] => p.isEmpty
  | c :: rest => chars_startsWith (c :: rest) p || chars_contains p rest

/-- Python s.split(sep) for a one-character separator; acc holds the current
field in reverse. -/
def split_on_char (sep : Char) : List Char → List Char → List (List Char)
  | acc, [] => [acc.reverse]
  | acc, c :: cs =>
    if c == sep then acc.reverse :: split_on_char sep [] cs
    else split_on_char sep (c :: acc) cs

/-- Python s.replace(pat, rep): replace every non-overlapping occurrence from
the left.  The fuel argument (instantiated with the length of the string) keeps
the recursion structural; the source only calls replace with non-empty
patterns, for which the fuel is never exhausted. -/
def chars_replace_aux (pat rep : List Char) : Nat → List Char → List Char
  | _, [] => []
  | 0, s => s
  | fuel + 1, c :: rest =>
    if chars_startsWith (c :: rest) pat then
      rep ++ chars_replace_aux pat rep fuel ((c :: rest).drop pat.length)
    else
      c :: chars_replace_aux pat rep fuel rest

/-- Python s.split(sep) for a one-character separator, on strings. -/
def py_split (sep : Char) (s : String) : List String :=
  (split_on_char sep [] s.data).map (fun l => String.mk l)

/-- Python pattern in s. -/
def py_contains (s pattern : String) : Bool :=
  chars_contains pattern.data s.data

/-- Python s.replace(pat, rep). -/
def py_replace (s pat rep : String) : String :=
  String.mk (chars_replace_aux pat.data rep.data s.data.length s.data)

/-- Python s.startswith(p). -/
def py_startsWith (s p : String) : Bool :=
  chars_startsWith s.data p.data

/-- Python s.endswith(p). -/
def py_endsWith (s p : String) : Bool :=
  chars_startsWith s.data.reverse p.data.reverse

/-- Python s.isdigit(): non-empty and all characters are digits. -/
def py_isdigit (s : String) : Bool :=
  !s.data.isEmpty && s.data.all Char.isDigit

/-- Python int(s) for a string of decimal digits.  The source only applies
int() to strings it has checked (or expects) to be numeric; on other strings
Python would raise ValueError, which never happens on the inputs modelled
here. -/
def py_int_of_digits (s : String) : Nat :=
  s.data.foldl (fun acc c => acc * 10 + (c.toNat - 48)) 0

/-- Python s.upper(). -/
def py_toUpper (s : String) : String :=
  String.mk (s.data.map Char.toUpper)

/-- Python int() applied to a number: truncation toward zero.  Every number
converted in the embedded code paths is non-negative, where truncation agrees
with the floor. -/
def python_int (q : ℚ) : Int :=
  if q < 0 then Int.ceil q else Int.floor q

/-! ### Progress tracker (disk_service.py)

MIGRATION_STAGES (lines 34 to 48) keeps only the start and end percentage of
each stage; the Russian display names are not needed by any computation
modelled here. -/

/-- Stage table of disk_service.py lines 34 to 48: stage key, start percent,
end percent. -/
def MIGRATION_STAGES : List (String × Nat × Nat) :=
  [("initializing", 0, 3),
   ("validation", 3, 6),
   ("connecting", 6, 12),
   ("vm_info", 12, 15),
   ("vm_stopping", 15, 25),
   ("ssh_connection", 25, 30),
   ("dest_connecting", 30, 35),
   ("config_reading", 35, 40),
   ("vm_creation", 40, 50),
   ("disk_migration", 50, 90),
   ("network_config", 90, 95),
   ("cleanup", 95, 98),
   ("completed", 98, 100)]

/-- Dictionary lookup MIGRATION_STAGES[stage_key]. -/
def lookup_stage (stage_key : String) : Option (Nat × Nat) :=
  (MIGRATION_STAGES.find? (fun e => e.1 == stage_key)).map (fun e => e.2)

/-- calculate_stage_progress of disk_service.py lines 123 to 136. -/
def calculate_stage_progress (stage_key : String) (stage_progress : ℚ) : ℚ :=
  match lookup_stage stage_key with
  | none => 0
  | some se =>
    if stage_key = "completed" then 100
    else min 100 ((se.1 : ℚ) + ((se.2 : ℚ) - (se.1 : ℚ)) * stage_progress / 100)

/-- calculate_disk_progress of disk_service.py lines 138 to 148. -/
def calculate_disk_progress (current_disk total_disks : Nat) (disk_stage_progress : ℚ) : ℚ :=
  if total_disks = 0 then 0
  else
    let disk_portion : ℚ := 40 / (total_disks : ℚ)
    ((current_disk : ℚ) - 1) * disk_portion + disk_stage_progress * disk_portion / 100

/-- Step to stage classification of update_migration_status, disk_service.py
lines 154 to 170. -/
def step_to_stage (step : String) : String :=
  if step ∈ ["vm_stopped", "vm_ready"] then "vm_stopping"
  else if step ∈ ["ssh_connecting", "ssh_connected"] then "ssh_connection"
  else if step ∈ ["vm_id_check", "vm_id_available", "vm_id_changed", "vm_creating", "vm_created"] then
    "vm_creation"
  else if step ∈ ["disk_processing", "disk_creating", "disk_created", "disk_attaching",
                  "disk_attached", "disk_copying", "disk_copied", "disk_detecting_type",
                  "disk_downloading", "disk_uploading"] then
    "disk_migration"
  else if step ∈ ["network_mapping", "network_applied"] then "network_config"
  else if step ∈ ["cleanup_done"] then "cleanup"
  else if step = "error" then "error"
  else step

/-- Progress computation of update_migration_status, disk_service.py lines
172 to 184: override wins (clamped at 100), the disk migration stage with a
positive disk count uses the per-disk band, everything else interpolates in
the stage table. -/
def update_calculated_progress (step : String) (progress_override : Option ℚ)
    (total_disks current_disk : Nat) (stage_progress : ℚ) : ℚ :=
  match progress_override with
  | some p => min p 100
  | none =>
    if step_to_stage step = "disk_migration" ∧ 0 < total_disks then
      50 + calculate_disk_progress current_disk total_disks stage_progress
    else
      calculate_stage_progress (step_to_stage step) stage_progress

/-- format_speed of disk_service.py lines 70 to 77.  Python f-string rounding
of floats is modelled as round-half-up on exact rationals; the inputs settled
here are tie-free, where both agree. -/
def format_fixed1 (q : ℚ) : String :=
  let n := python_int (q * 10 + 1 / 2)
  toString (n / 10) ++ "." ++ toString (n % 10)

/-- Python f-string formatting with no decimals, same rounding caveat as
format_fixed1. -/
def format_fixed0 (q : ℚ) : String :=
  toString (python_int (q + 1 / 2))

/-- format_speed of disk_service.py lines 70 to 77. -/
def format_speed (speed_mbps : ℚ) : String :=
  if speed_mbps ≥ 1000 then format_fixed1 (speed_mbps / 1000) ++ " GB/s"
  else if speed_mbps ≥ 1 then format_fixed1 speed_mbps ++ " MB/s"
  else format_fixed0 (speed_mbps * 1000) ++ " KB/s"

/-- calculate_eta of disk_service.py lines 103 to 121.  Python floor division
and modulo on non-negative floats are expressed through python_int. -/
def calculate_eta (transferred total : Nat) (speed_mbps : ℚ) : String :=
  if speed_mbps = 0 ∨ total ≤ transferred then ""
  else
    let remaining_bytes : ℚ := (total : ℚ) - (transferred : ℚ)
    let remaining_mb : ℚ := remaining_bytes / (1024 * 1024)
    let eta_seconds : ℚ := if 0 < speed_mbps then remaining_mb / speed_mbps else 0
    if 3600 < eta_seconds then
      let hours := python_int (eta_seconds / 3600)
      let minutes := python_int ((eta_seconds - 3600 * (hours : ℚ)) / 60)
      toString hours ++ "h " ++ toString minutes ++ "m"
    else if 60 < eta_seconds then
      let minutes := python_int (eta_seconds / 60)
      let seconds := python_int (eta_seconds - 60 * (minutes : ℚ))
      toString minutes ++ "m " ++ toString seconds ++ "s"
    else
      toString (python_int eta_seconds) ++ "s"

/-- Activity log entry of update_migration_status, disk_service.py lines 196
to 204.  Only the message and the integer progress snapshot take part in the
duplicate check and the cap; the timestamp, stage display name and key fields
are carried by the source entry but never read by the logic modelled here. -/
structure LogEntry where
  message : String
  progress : Int
deriving DecidableEq

/-- Duplicate check of disk_service.py lines 206 to 212, applied to the slice
of recent entries. -/
def is_duplicate_entry (recent : List LogEntry) (activity_text : String) (progress : Int) : Bool :=
  recent.any (fun e => e.message == activity_text && decide ((e.progress - progress).natAbs ≤ 1))

/-- Activity log append of update_migration_status, disk_service.py lines 192
to 219: when the call carries a message or details, append unless one of the
last three entries is a duplicate, then cap the log at 30 entries dropping the
oldest.  has_content models the truthiness test (details or message). -/
def append_activity (details : List LogEntry) (has_content : Bool)
    (activity_text : String) (progress : Int) : List LogEntry :=
  if has_content then
    let entry : LogEntry := ⟨activity_text, progress⟩
    let recent := details.drop (details.length - 3)
    if is_duplicate_entry recent activity_text progress then details
    else
      let appended := details ++ [entry]
      if 30 < appended.length then appended.drop (appended.length - 30) else appended
  else details

/-- Iterated status updates acting on the activity log: each call carries the
content flag, the activity text and the integer progress snapshot. -/
def run_activity_log (init : List LogEntry) (calls : List (Bool × String × Int)) : List LogEntry :=
  calls.foldl (fun acc c => append_activity acc c.1 c.2.1 c.2.2) init

/-! ### Keyword binding of the confirmation status call (migration_service.py)

Python binds a keyword call only when every keyword names a parameter of the
callee; update_migration_status has no var-keyword parameter, so an unknown
keyword raises TypeError at call time. -/

/-- Parameter names of update_migration_status, disk_service.py line 150. -/
def update_migration_status_params : List String :=
  ["step", "progress_override", "message", "details", "stage_progress"]

/-- Keyword arguments of the confirm_vm_stop status call, migration_service.py
lines 61 to 63 (and again lines 89 to 92). -/
def confirm_vm_stop_call_kwargs : List String :=
  ["message", "details", "needs_confirmation"]

/-- Keyword arguments of the stopping_vm status call, migration_service.py
lines 73 to 74. -/
def stopping_vm_call_kwargs : List String :=
  ["message", "details", "stage_progress"]

/-- Python keyword binding succeeds exactly when every keyword argument names
a declared parameter. -/
def python_call_binds (params kwargs : List String) : Bool :=
  kwargs.all (fun k => params.contains k)

/-! ### Free VM id search (migration_service.py lines 166 to 210) -/

/-- The attempt cap of the free VM id loop, migration_service.py line 167. -/
def max_vmid_attempts : Nat := 100

/-- One existence probe per attempt; on collision the candidate id grows by
one and the increment counter is recorded.  The fuel argument models the
bounded for-loop; exhaustion models the for-else raise.  The source keeps the
id as a string and computes str(int(id) + 1), which round-trips with the Nat
arithmetic used here. -/
def find_free_vmid_aux (vm_exists : Nat → Bool) : Nat → Nat → Nat → Option (Nat × Nat)
  | 0, _, _ => none
  | fuel + 1, target, incs =>
    if vm_exists target then find_free_vmid_aux vm_exists fuel (target + 1) (incs + 1)
    else some (target, incs)

/-- Free VM id search returning the allocated id and the number of
collision-driven increments, or none when the 100 attempts are exhausted. -/
def find_free_vmid (vm_exists : Nat → Bool) (requested : Nat) : Option (Nat × Nat) :=
  find_free_vmid_aux vm_exists max_vmid_attempts requested 0

/-- Existence probe of migration_service.py lines 173 to 188: the cluster-wide
resource listing is preferred (an entry of type qemu with the candidate id
means the id is taken); if that call raises, fall back to the per-node config
fetch, whose success means the id is taken and whose failure means it is
free. -/
def vm_exists_probe (cluster_resources : Except Unit (List (String × Nat)))
    (node_config_fetch_ok : Nat → Bool) (target_vmid : Nat) : Bool :=
  match cluster_resources with
  | .ok resources => resources.any (fun r => r.1 == "qemu" && r.2 == target_vmid)
  | .error _ => node_config_fetch_ok target_vmid

/-! ### Disk selection (migration_service.py lines 243 to 270) -/

/-- Disks that are both present in the source VM config and keyed in the
storage mapping of the request, migration_service.py lines 247 to 253. -/
def select_disks_to_migrate (disk_configs storage_mappings : List (String × String)) :
    List (String × String) :=
  disk_configs.filter (fun kv => storage_mappings.any (fun m => m.1 == kv.1))

/-- Disks present in the VM config but skipped for lack of a storage mapping
(logged at line 253). -/
def skipped_unmapped_disks (disk_configs storage_mappings : List (String × String)) :
    List String :=
  (disk_configs.filter (fun kv => !storage_mappings.any (fun m => m.1 == kv.1))).map Prod.fst

/-- Mapping keys without a matching disk in the VM config, logged as warnings
at migration_service.py lines 256 to 258. -/
def mapped_absent_warnings (disk_configs storage_mappings : List (String × String)) :
    List String :=
  (storage_mappings.filter (fun m => !disk_configs.any (fun kv => kv.1 == m.1))).map Prod.fst

/-- Outcome of the disk phase of migrate_vm: with an empty effective disk set
the function returns success right after VM shell creation (lines 266 to 270),
otherwise it iterates over the selected disks. -/
inductive DiskPhaseOutcome where
  | success_no_disks
  | migrate_disks (disks : List (String × String))
deriving DecidableEq

/-- Disk phase dispatch of migrate_vm, migration_service.py lines 260 to 272. -/
def disk_migration_phase (disk_configs storage_mappings : List (String × String)) :
    DiskPhaseOutcome :=
  let selected := select_disks_to_migrate disk_configs storage_mappings
  if selected.length = 0 then .success_no_disks else .migrate_disks selected

/-! ### Disk size derivation (migration_service.py lines 294 to 334) -/

/-- Size unit conversion of migration_service.py lines 300 to 323, applied to
the raw value of the size option; current is the size value that stays in
place when the raw value matches no recognised shape. -/
def convert_raw_size (raw_size : String) (current : String) : String :=
  if py_endsWith raw_size "K" then
    let kb_value := py_int_of_digits (String.mk raw_size.data.dropLast)
    let mb_value := max 1 ((kb_value + 1023) / 1024)
    toString mb_value ++ "M"
  else if py_endsWith raw_size "M" || py_endsWith raw_size "G" || py_endsWith raw_size "T" then
    raw_size
  else if py_isdigit raw_size then
    let size_bytes := py_int_of_digits raw_size
    if size_bytes < 1024 ^ 2 then
      toString (max 1 ((size_bytes + 1024 ^ 2 - 1) / 1024 ^ 2)) ++ "M"
    else if size_bytes < 1024 ^ 3 then
      toString (size_bytes / 1024 ^ 2) ++ "M"
    else
      toString (max 1 (size_bytes / 1024 ^ 3)) ++ "G"
  else current

/-- The first size option of the comma-separated option list, with the value
after the equals sign extracted (migration_service.py lines 298 to 301). -/
def find_size_option (options : String) : Option String :=
  ((py_split ',' options).find? (fun opt => py_startsWith opt "size=")).map
    (fun opt => (py_split '=' opt).getD 1 "")

/-- The first efitype option value, upper-cased (migration_service.py lines
328 to 334). -/
def find_efitype_option (options : String) : Option String :=
  ((py_split ',' options).find? (fun opt => py_startsWith opt "efitype=")).map
    (fun opt => py_toUpper ((py_split '=' opt).getD 1 ""))

/-- Disk size derivation of migrate_vm, migration_service.py lines 294 to 334:
default 20G, then the converted size option when present, then for EFI disks
with no explicit size the efitype option when it ends in M. -/
def derive_disk_size (disk_key : String) (options : String) : String :=
  let size0 := "20G"
  let size1 :=
    if py_contains options "size=" then
      match find_size_option options with
      | some raw_size => convert_raw_size raw_size size0
      | none => size0
    else size0
  if py_startsWith disk_key "efidisk" && py_contains options "efitype=" && size1 == "20G" then
    match find_efitype_option options with
    | some efi_type => if py_endsWith efi_type "M" then efi_type else size1
    | none => size1
  else size1

/-! ### Disk transfer engine (disk_service.py lines 228 to 1111)

The two transfer paths are modelled as functions from an environment record,
which fixes the outcome of each remote interaction, to the ordered trace of
the remote operations performed together with the final result: the returned
destination path on success, the raised message on failure.  The
dest_storage-specific resolution of the destination directory (lines 489 to
568 and 931 to 982) only changes the directory prefix, never the control flow
or the file name, and is therefore kept at the default directory. -/

/-- check_disk_space of disk_service.py lines 228 to 261: with a parsed df
value, compare against the required size with a 20 percent buffer
(required_with_buffer = int(required_size_gb * 1.2)); with unparseable df
output or a raised command the check passes. -/
def check_disk_space (df_available_gb : Option Int) (required_size_gb : ℚ) : Bool :=
  match df_available_gb with
  | some available_gb =>
    if python_int (required_size_gb * (12 / 10)) ≤ available_gb then true else false
  | none => true

/-- Outcome of the shell mv fallback used when the SFTP rename raises. -/
inductive ShellMvResult where
  | ok
  | stderrOut
  | raised
deriving DecidableEq

/-- Remote operations performed by a disk transfer, in order. -/
inductive DiskOp where
  | locateSource
  | checkSpace
  | mkdirDestDir
  | download
  | upload
  | deviceTypeCheck
  | ddSnapshot
  | sftpRename
  | shellMv
  | cleanupRemoteTemp
  | cleanupLocal
deriving DecidableEq

/-- Environment fixing the outcome of every remote interaction of one disk
transfer. -/
structure TransferEnv where
  vmid : String
  disk_filename : String
  source_found : Bool
  source_size_gb : ℚ
  df_available_gb : Option Int
  dest_dir_verify_ok : Bool
  download_ok : Bool
  upload_ok : Bool
  sftp_rename_ok : Bool
  shell_mv : ShellMvResult
  is_block_device : Bool
  dd_ok : Bool

/-- Scan of the dash-separated parts of the uploaded filename for the first
part that starts with disk and is followed by another part (disk_service.py
lines 703 to 709 and 1024 to 1029). -/
def find_disk_part : List String → Option (String × String)
  | [] => none
  | [_] => none
  | p :: q :: rest =>
    if py_startsWith p "disk" then some (p, q) else find_disk_part (q :: rest)

/-- Canonical rename target of disk_service.py lines 697 to 715 (and 1019 to
1034): when the uploaded filename contains a disk- segment, build
vm-(vmid)-(diskpart)-(number).qcow2 where the number is the part after the
disk part with every .raw and .qcow2 occurrence removed; none models the
branches that skip the rename. -/
def rename_target_filename (vmid : String) (original_filename : String) : Option String :=
  if py_contains original_filename "disk-" then
    match find_disk_part (py_split '-' original_filename) with
    | some (disk_part, next_part) =>
      let disk_number := py_replace (py_replace next_part ".raw" "") ".qcow2" ""
      if disk_part.data.isEmpty || disk_number.data.isEmpty then none
      else some ("vm-" ++ vmid ++ "-" ++ disk_part ++ "-" ++ disk_number ++ ".qcow2")
    | none => none
  else none

/-- Rename attempt of the file-based path, disk_service.py lines 690 to 760:
SFTP rename first, shell mv on failure; the shell fallback is wrapped in a
try block, so a raised fallback is logged and the transfer continues with the
unrenamed path, and a fallback that prints to stderr also keeps the unrenamed
path. -/
def attempt_rename_file_based (env : TransferEnv) (dest_dir dest_path original_filename : String) :
    String :=
  match rename_target_filename env.vmid original_filename with
  | none => dest_path
  | some new_filename =>
    let new_dest_path := dest_dir ++ "/" ++ new_filename
    if env.sftp_rename_ok then new_dest_path
    else
      match env.shell_mv with
      | .ok => new_dest_path
      | .stderrOut => dest_path
      | .raised => dest_path

/-- Rename attempt of the block-based path, disk_service.py lines 1014 to
1067: same naming and SFTP-then-shell order, but the shell fallback is not
wrapped, so a raised fallback propagates to the handler at line 1097 and
aborts the transfer, while a fallback that prints to stderr keeps the
unrenamed path. -/
def attempt_rename_block_based (env : TransferEnv) (dest_dir dest_path original_filename : String) :
    Except String String :=
  match rename_target_filename env.vmid original_filename with
  | none => .ok dest_path
  | some new_filename =>
    let new_dest_path := dest_dir ++ "/" ++ new_filename
    if env.sftp_rename_ok then .ok new_dest_path
    else
      match env.shell_mv with
      | .ok => .ok new_dest_path
      | .stderrOut => .ok dest_path
      | .raised => .error "Failed to transfer temporary file"

/-- Remote operations performed by the rename attempt. -/
def rename_attempt_ops (env : TransferEnv) : List DiskOp :=
  match rename_target_filename env.vmid (env.disk_filename ++ ".raw") with
  | none => []
  | some _ => if env.sftp_rename_ok then [.sftpRename] else [.sftpRename, .shellMv]

/-- copy_file_based_storage of disk_service.py lines 346 to 807: locate the
source file, check destination space (line 584) and abort on shortage, create
and verify the destination directory, download to local staging, upload, then
attempt the rename; any rename failure is non-fatal in this path. -/
def copy_file_based_storage_model (env : TransferEnv) : List DiskOp × Except String String :=
  if env.source_found = false then
    ([.locateSource], .error "Could not locate source disk file")
  else if check_disk_space env.df_available_gb env.source_size_gb = false then
    ([.locateSource, .checkSpace], .error "Insufficient disk space on destination server")
  else if env.dest_dir_verify_ok = false then
    ([.locateSource, .checkSpace, .mkdirDestDir],
     .error "Failed to create or verify destination directory")
  else if env.download_ok = false then
    ([.locateSource, .checkSpace, .mkdirDestDir, .download],
     .error "Failed to copy file-based storage")
  else if env.upload_ok = false then
    ([.locateSource, .checkSpace, .mkdirDestDir, .download, .upload],
     .error "Failed to upload file to destination")
  else
    let dest_dir := "/var/lib/vz/images/" ++ env.vmid
    let dest_path := dest_dir ++ "/" ++ env.disk_filename ++ ".raw"
    ([.locateSource, .checkSpace, .mkdirDestDir, .download, .upload] ++ rename_attempt_ops env
       ++ [.cleanupLocal],
     .ok (attempt_rename_file_based env dest_dir dest_path (env.disk_filename ++ ".raw")))

/-- copy_block_based_storage of disk_service.py lines 809 to 1111: locate the
backing device, require a block device, snapshot it with dd, download to local
staging, create the destination directory (line 991, with no space check
anywhere in this path), upload, then attempt the rename; only a raised shell
fallback aborts. -/
def copy_block_based_storage_model (env : TransferEnv) : List DiskOp × Except String String :=
  if env.source_found = false then
    ([.locateSource], .error "Could not locate source disk file")
  else if env.is_block_device = false then
    ([.locateSource, .deviceTypeCheck],
     .error "Only block device copying is currently supported for this storage type")
  else if env.dd_ok = false then
    ([.locateSource, .deviceTypeCheck, .ddSnapshot],
     .error "Failed to create temporary file from block device")
  else if env.download_ok = false then
    ([.locateSource, .deviceTypeCheck, .ddSnapshot, .download],
     .error "Failed to transfer temporary file")
  else if env.upload_ok = false then
    ([.locateSource, .deviceTypeCheck, .ddSnapshot, .download, .mkdirDestDir, .upload],
     .error "Failed to transfer temporary file")
  else
    let dest_dir := "/var/lib/vz/images/" ++ env.vmid
    let dest_path := dest_dir ++ "/" ++ env.disk_filename ++ ".raw"
    let base : List DiskOp :=
      [.locateSource, .deviceTypeCheck, .ddSnapshot, .download, .mkdirDestDir, .upload]
    match attempt_rename_block_based env dest_dir dest_path (env.disk_filename ++ ".raw") with
    | .ok final_path =>
      (base ++ rename_attempt_ops env ++ [.cleanupRemoteTemp, .cleanupLocal], .ok final_path)
    | .error e => (base ++ rename_attempt_ops env, .error e)

/-! ### Concrete data used by single claims -/

/-- Source disk configs with two SCSI disks, used for the disk selection
scenario. -/
def c1_disk_configs : List (String × String) :=
  [("scsi0", "local:100/vm-100-disk-0.qcow2,size=10G"),
   ("scsi1", "local:100/vm-100-disk-1.qcow2,size=5G")]

/-- Storage mapping containing only scsi0. -/
def c1_storage_mappings : List (String × String) :=
  [("scsi0", "dest-store")]

/-- Storage mapping containing scsi0 and an absent slot scsi2. -/
def c1_storage_mappings_extra : List (String × String) :=
  [("scsi0", "dest-store"), ("scsi2", "dest-store")]

/-- Storage mapping whose only key matches no disk of the VM config. -/
def c1_storage_mappings_mismatch : List (String × String) :=
  [("ide2", "dest-store")]

/-- Cluster-wide resource listing of a destination where ids 100 to 104 are
taken by qemu VMs. -/
def c3_cluster_resources : Except Unit (List (String × Nat)) :=
  .ok [("qemu", 100), ("qemu", 101), ("qemu", 102), ("qemu", 103), ("qemu", 104)]

/-- Block-path environment with far too little destination space and every
remote interaction succeeding. -/
def c4_block_env : TransferEnv :=
  { vmid := "104", disk_filename := "vm-100-disk-0", source_found := true,
    source_size_gb := 100, df_available_gb := some 0, dest_dir_verify_ok := true,
    download_ok := true, upload_ok := true, sftp_rename_ok := true,
    shell_mv := .ok, is_block_device := true, dd_ok := true }

/-- File-path environment with insufficient destination space. -/
def c4_file_env : TransferEnv :=
  { vmid := "105", disk_filename := "vm-101-disk-0.qcow2", source_found := true,
    source_size_gb := 100, df_available_gb := some 50, dest_dir_verify_ok := true,
    download_ok := true, upload_ok := true, sftp_rename_ok := true,
    shell_mv := .ok, is_block_device := false, dd_ok := true }

/-- File-path environment where the SFTP rename and the shell fallback both
fail. -/
def c5_file_env : TransferEnv :=
  { vmid := "104", disk_filename := "vm-100-disk-0.qcow2", source_found := true,
    source_size_gb := 10, df_available_gb := some 1000, dest_dir_verify_ok := true,
    download_ok := true, upload_ok := true, sftp_rename_ok := false,
    shell_mv := .raised, is_block_device := false, dd_ok := true }

/-- Block-path environment where the SFTP rename fails and the shell fallback
raises. -/
def c5_block_env : TransferEnv :=
  { vmid := "104", disk_filename := "vm-100-disk-0", source_found := true,
    source_size_gb := 10, df_available_gb := some 1000, dest_dir_verify_ok := true,
    download_ok := true, upload_ok := true, sftp_rename_ok := false,
    shell_mv := .raised, is_block_device := true, dd_ok := true }

/-- File-path environment where the SFTP rename fails and the shell fallback
succeeds. -/
def c5_shell_ok_env : TransferEnv :=
  { vmid := "104", disk_filename := "vm-100-disk-0.qcow2", source_found := true,
    source_size_gb := 10, df_available_gb := some 1000, dest_dir_verify_ok := true,
    download_ok := true, upload_ok := true, sftp_rename_ok := false,
    shell_mv := .ok, is_block_device := false, dd_ok := true }

/-! ### Theorems -/

/-- C1: only disk slots present in both the source VM config and the storage
mapping of the request are migrated; with disks scsi0 and scsi1 and a mapping
containing only scsi0, exactly one disk is migrated and scsi1 is skipped with
a log entry; a mapped-but-absent slot produces only a warning and leaves the
outcome unchanged; and with an empty effective disk set the workflow returns
success right after VM shell creation with no disk migrated. -/
theorem C1_disk_selection :
    (∀ (disk_configs storage_mappings : List (String × String)) (k : String),
      k ∈ (select_disks_to_migrate disk_configs storage_mappings).map Prod.fst ↔
        k ∈ disk_configs.map Prod.fst ∧ k ∈ storage_mappings.map Prod.fst) ∧
    select_disks_to_migrate c1_disk_configs c1_storage_mappings
      = [("scsi0", "local:100/vm-100-disk-0.qcow2,size=10G")] ∧
    skipped_unmapped_disks c1_disk_configs c1_storage_mappings = ["scsi1"] ∧
    disk_migration_phase c1_disk_configs c1_storage_mappings
      = .migrate_disks [("scsi0", "local:100/vm-100-disk-0.qcow2,size=10G")] ∧
    mapped_absent_warnings c1_disk_configs c1_storage_mappings_extra = ["scsi2"] ∧
    disk_migration_phase c1_disk_configs c1_storage_mappings_extra
      = disk_migration_phase c1_disk_configs c1_storage_mappings ∧
    disk_migration_phase c1_disk_configs c1_storage_mappings_mismatch = .success_no_disks := by
  refine ⟨?_, by decide, by decide, by decide, by decide, by decide, by decide⟩
  intro dc sm k
  simp only [select_disks_to_migrate, List.mem_map, List.mem_filter, List.any_eq_true,
    beq_iff_eq]
  constructor
  · rintro ⟨x, ⟨hxdc, m, hm, hmx⟩, rfl⟩
    exact ⟨⟨x, hxdc, rfl⟩, ⟨m, hm, hmx⟩⟩
  · rintro ⟨⟨x, hxdc, rfl⟩, m, hm, hmk⟩
    exact ⟨x, ⟨hxdc, m, hm, hmk⟩, rfl⟩

/-- C2: the confirmation status call of migrate_vm passes the keyword
needs_confirmation, which is not among the parameters of
update_migration_status, so Python raises TypeError at the call; the
stopping_vm status call by contrast binds.  This makes the documented
publish-and-wait behaviour for a running source VM unreachable. -/
theorem C2_confirm_call_keyword_rejected :
    python_call_binds update_migration_status_params confirm_vm_stop_call_kwargs = false ∧
    "needs_confirmation" ∉ update_migration_status_params ∧
    python_call_binds update_migration_status_params stopping_vm_call_kwargs = true := by
  decide

/-- C3: the free VM id search starts at the requested id, probes through the
cluster-wide listing with a per-node fallback on error, increments by one per
collision, and gives up after 100 attempts; with ids 100 to 104 taken,
requesting 100 allocates 105 after exactly 5 collision-driven increments. -/
theorem C3_free_vmid_allocation :
    find_free_vmid (fun n => vm_exists_probe c3_cluster_resources (fun _ => false) n) 100
      = some (105, 5) ∧
    (∀ (vm_exists : Nat → Bool) (fuel target incs : Nat), vm_exists target = true →
      find_free_vmid_aux vm_exists (fuel + 1) target incs
        = find_free_vmid_aux vm_exists fuel (target + 1) (incs + 1)) ∧
    (∀ (vm_exists : Nat → Bool) (fuel target incs : Nat), vm_exists target = false →
      find_free_vmid_aux vm_exists (fuel + 1) target incs = some (target, incs)) ∧
    find_free_vmid (fun _ => true) 100 = none ∧
    (∀ (node_config_fetch_ok : Nat → Bool) (t : Nat),
      vm_exists_probe (.error ()) node_config_fetch_ok t = node_config_fetch_ok t) := by
  refine ⟨by decide, ?_, ?_, by decide, fun _ _ => rfl⟩
  · intro ve fuel t i h
    simp [find_free_vmid_aux, h]
  · intro ve fuel t i h
    simp [find_free_vmid_aux, h]

/-- Witness for C3 at concrete probes. -/
theorem C3_free_vmid_allocation_witness :
    (fun (_ : Nat) => true) 7 = true ∧
    find_free_vmid_aux (fun _ => true) 1 7 0 = find_free_vmid_aux (fun _ => true) 0 8 1 ∧
    (fun (_ : Nat) => false) 7 = false ∧
    find_free_vmid_aux (fun _ => false) 1 7 0 = some (7, 0) :=
  ⟨rfl, C3_free_vmid_allocation.2.1 (fun _ => true) 0 7 0 rfl,
   rfl, C3_free_vmid_allocation.2.2.1 (fun _ => false) 0 7 0 rfl⟩

/-- C6 counterexample: the claim expects size=2097152 to normalize to 1M, but
2097152 bytes is exactly 2 MiB and the code floors it to 2M. -/
theorem C6_counterexample : derive_disk_size "scsi0" "size=2097152" ≠ "1M" := by
  decide

/-- C6 amended: size=2097152 (a plain byte count, exactly 2 MiB) normalizes to
2M; plain byte counts below 1 MiB round up to 1M; size=50K rounds up to 1M;
size=10G passes through unchanged. -/
theorem C6_size_normalization :
    derive_disk_size "scsi0" "size=2097152" = "2M" ∧
    derive_disk_size "scsi0" "size=50K" = "1M" ∧
    derive_disk_size "scsi0" "size=10G" = "10G" ∧
    derive_disk_size "scsi0" "size=500000" = "1M" ∧
    derive_disk_size "scsi0" "size=1048575" = "1M" := by
  decide

/-- C9: speeds below 1 MB per second render in KB per second, below 1000 in MB
per second, larger in GB per second; the ETA renders 30 seconds as 30s, 125
seconds as 2m 5s, 4000 seconds as 1h 6m, and is empty at zero speed or when
the transfer is complete. -/
theorem C9_speed_and_eta_formatting :
    format_speed (1 / 2) = "500 KB/s" ∧
    format_speed 2 = "2.0 MB/s" ∧
    format_speed 1500 = "1.5 GB/s" ∧
    calculate_eta 0 (30 * 1024 * 1024) 1 = "30s" ∧
    calculate_eta 0 (125 * 1024 * 1024) 1 = "2m 5s" ∧
    calculate_eta 0 (4000 * 1024 * 1024) 1 = "1h 6m" ∧
    calculate_eta 0 100 0 = "" ∧
    calculate_eta 5 5 1 = "" := by
  refine ⟨?_, ?_, ?_, ?_, ?_, ?_, ?_, ?_⟩ <;>
    first
      | (norm_num [format_speed, format_fixed0, format_fixed1, python_int]
         all_goals decide)
      | (norm_num [calculate_eta, python_int]
         all_goals decide)

/-- C10: a status update with no override and a step name that is neither in
the step classification nor a key of the stage table computes overall progress
0; the orchestrator steps stopping_vm, confirm_vm_stop and migration_complete
are all of this shape, so the published progress can fall back to 0 mid
run. -/
theorem C10_unmapped_step_zero_progress :
    (∀ (total_disks current_disk : Nat) (sp : ℚ),
      update_calculated_progress "stopping_vm" none total_disks current_disk sp = 0) ∧
    (∀ (total_disks current_disk : Nat) (sp : ℚ),
      update_calculated_progress "confirm_vm_stop" none total_disks current_disk sp = 0) ∧
    (∀ (total_disks current_disk : Nat) (sp : ℚ),
      update_calculated_progress "migration_complete" none total_disks current_disk sp = 0) ∧
    (∀ (step : String) (total_disks current_disk : Nat) (sp : ℚ),
      step_to_stage step = step → lookup_stage step = none →
      update_calculated_progress step none total_disks current_disk sp = 0) := by
  refine ⟨fun _ _ _ => rfl, fun _ _ _ => rfl, fun _ _ _ => rfl, ?_⟩
  intro step td cd sp h1 h2
  simp only [update_calculated_progress]
  rw [h1]
  split
  · rename_i hcond
    rw [hcond.1] at h2
    exact absurd h2 (by decide)
  · simp [calculate_stage_progress, h2]

/-- Witness for C10 at a concrete unmapped step. -/
theorem C10_unmapped_step_zero_progress_witness :
    update_calculated_progress "unknown_orchestrator_step" none 4 2 55 = 0 :=
  C10_unmapped_step_zero_progress.2.2.2 "unknown_orchestrator_step" 4 2 55 rfl rfl

/-- Helper: an entry found in the stage table has its start bound at most its
end bound. -/
theorem stage_bounds_of_lookup (k : String) (se : Nat × Nat) (h : lookup_stage k = some se) :
    se.1 ≤ se.2 := by
  have hall : ∀ e ∈ MIGRATION_STAGES, e.2.1 ≤ e.2.2 := by decide
  unfold lookup_stage at h
  cases hf : MIGRATION_STAGES.find? (fun e => e.1 == k) with
  | none => rw [hf] at h; simp at h
  | some e =>
    rw [hf] at h
    simp only [Option.map_some'] at h
    have h2 := Option.some.inj h
    rw [← h2]
    exact hall e (List.mem_of_find?_eq_some hf)

/-- C8: for a fixed step, no override and fixed disk counters, the computed
overall progress is monotone in the stage progress, so any sequence of update
calls with strictly increasing stage progress inside one stage publishes a
non-decreasing overall percentage. -/
theorem C8_progress_monotone (step : String) (total_disks current_disk : Nat)
    (p q : ℚ) (hpq : p ≤ q) :
    update_calculated_progress step none total_disks current_disk p ≤
      update_calculated_progress step none total_disks current_disk q := by
  simp only [update_calculated_progress]
  split
  · simp only [calculate_disk_progress]
    split
    · exact le_refl _
    · have hport : (0 : ℚ) ≤ 40 / (total_disks : ℚ) :=
        div_nonneg (by norm_num) (Nat.cast_nonneg _)
      gcongr
  · rcases hls : lookup_stage (step_to_stage step) with _ | se
    · simp [calculate_stage_progress, hls]
    · simp only [calculate_stage_progress, hls]
      split
      · exact le_refl _
      · have hse : (se.1 : ℚ) ≤ (se.2 : ℚ) := by
          exact_mod_cast stage_bounds_of_lookup _ se hls
        have hsub : (0 : ℚ) ≤ (se.2 : ℚ) - (se.1 : ℚ) := sub_nonneg.mpr hse
        apply min_le_min
        · exact le_refl _
        · apply add_le_add_left
          exact (div_le_div_iff_of_pos_right (by norm_num)).mpr (mul_le_mul_of_nonneg_left hpq hsub)

/-- Witness for C8 inside the disk migration stage. -/
theorem C8_progress_monotone_witness :
    (10 : ℚ) ≤ 60 ∧
    update_calculated_progress "disk_copying" none 2 1 10 ≤
      update_calculated_progress "disk_copying" none 2 1 60 :=
  ⟨by norm_num, C8_progress_monotone "disk_copying" 2 1 10 60 (by norm_num)⟩

/-- Helper: a duplicate among the recent entries suppresses the append. -/
theorem append_activity_of_duplicate (details : List LogEntry) (has_content : Bool)
    (t : String) (p : Int)
    (hdup : is_duplicate_entry (details.drop (details.length - 3)) t p = true) :
    append_activity details has_content t p = details := by
  simp [append_activity, hdup]

/-- Helper: one append keeps the log at 30 entries or fewer. -/
theorem append_activity_length_le (details : List LogEntry) (has_content : Bool)
    (t : String) (p : Int) (h : details.length ≤ 30) :
    (append_activity details has_content t p).length ≤ 30 := by
  simp only [append_activity]
  split
  · split
    · exact h
    · split
      · rename_i happ
        rw [List.length_drop]
        omega
      · rename_i happ
        rw [List.length_append] at happ ⊢
        simp only [List.length_cons, List.length_nil] at happ ⊢
        omega
  · exact h

/-- Helper: the cap is preserved by any sequence of updates. -/
theorem run_activity_log_length_le (calls : List (Bool × String × Int)) (init : List LogEntry)
    (h : init.length ≤ 30) : (run_activity_log init calls).length ≤ 30 := by
  induction calls generalizing init with
  | nil => exact h
  | cons c rest ih => exact ih _ (append_activity_length_le _ _ _ _ h)

/-- Helper: appending over a full log of 30 entries drops the oldest entry. -/
theorem append_activity_evicts_oldest (details : List LogEntry) (t : String) (p : Int)
    (hlen : details.length = 30)
    (hdup : is_duplicate_entry (details.drop (details.length - 3)) t p = false) :
    append_activity details true t p = details.drop 1 ++ [⟨t, p⟩] := by
  simp only [append_activity, if_true, hdup, Bool.false_eq_true, if_false]
  have h31 : (details ++ [({ message := t, progress := p } : LogEntry)]).length = 31 := by
    simp [hlen]
  have hcond : 30 < (details ++ [({ message := t, progress := p } : LogEntry)]).length := by
    rw [h31]
    omega
  have hd : (1 : Nat) ≤ details.length := by omega
  rw [if_pos hcond, h31]
  have h1 : (31 : Nat) - 30 = 1 := rfl
  rw [h1]
  exact List.drop_append_of_le_length hd

/-- C7: a status update appends a log entry only when none of the last up to
three entries carries the same message with progress within one point; an
append over a full log of 30 entries evicts the oldest entry; and the log
never exceeds 30 entries under any sequence of update calls from the reset
state. -/
theorem C7_activity_log_dedup_and_cap :
    (∀ (details : List LogEntry) (has_content : Bool) (t : String) (p : Int),
      is_duplicate_entry (details.drop (details.length - 3)) t p = true →
      append_activity details has_content t p = details) ∧
    (∀ (details : List LogEntry) (has_content : Bool) (t : String) (p : Int),
      details.length ≤ 30 → (append_activity details has_content t p).length ≤ 30) ∧
    (∀ (details : List LogEntry) (t : String) (p : Int), details.length = 30 →
      is_duplicate_entry (details.drop (details.length - 3)) t p = false →
      append_activity details true t p = details.drop 1 ++ [⟨t, p⟩]) ∧
    (∀ calls : List (Bool × String × Int), (run_activity_log [] calls).length ≤ 30) :=
  ⟨append_activity_of_duplicate, append_activity_length_le, append_activity_evicts_oldest,
   fun calls => run_activity_log_length_le calls [] (by simp)⟩

/-- Witness for C7 at concrete logs. -/
theorem C7_activity_log_dedup_and_cap_witness :
    append_activity [⟨"copying disk", 55⟩] true "copying disk" 56 = [⟨"copying disk", 55⟩] ∧
    (append_activity [⟨"copying disk", 55⟩] true "validating" 3).length ≤ 30 ∧
    append_activity (List.replicate 30 ⟨"x", 0⟩) true "done" 99
      = (List.replicate 30 (⟨"x", 0⟩ : LogEntry)).drop 1 ++ [⟨"done", 99⟩] :=
  ⟨C7_activity_log_dedup_and_cap.1 [⟨"copying disk", 55⟩] true "copying disk" 56 (by decide),
   C7_activity_log_dedup_and_cap.2.1 [⟨"copying disk", 55⟩] true "validating" 3 (by decide),
   C7_activity_log_dedup_and_cap.2.2.1 (List.replicate 30 ⟨"x", 0⟩) "done" 99 (by decide)
     (by decide)⟩

/-- Helper: the rename attempt never performs a space check. -/
theorem checkSpace_not_in_rename_ops (env : TransferEnv) :
    DiskOp.checkSpace ∉ rename_attempt_ops env := by
  unfold rename_attempt_ops
  split
  · simp
  · split <;> simp

/-- C4 counterexample: with insufficient destination space the block-based
transfer path still succeeds and its operation trace contains no space check
at all, refuting the claim that both paths check free space before moving
data. -/
theorem C4_counterexample :
    check_disk_space c4_block_env.df_available_gb c4_block_env.source_size_gb = false ∧
    (copy_block_based_storage_model c4_block_env).2.isOk = true ∧
    DiskOp.checkSpace ∉ (copy_block_based_storage_model c4_block_env).1 := by
  refine ⟨?_, by decide, by decide⟩
  norm_num [check_disk_space, python_int, c4_block_env]

/-- C4 amended: only the file-based transfer path checks the free space of
the destination directory against the source size with a 20 percent margin,
aborting the disk before any data is moved when the space is insufficient;
the block-based path performs no space check at all. -/
theorem C4_space_check_only_file_based :
    (∀ env : TransferEnv, env.source_found = true →
      check_disk_space env.df_available_gb env.source_size_gb = false →
      (copy_file_based_storage_model env).2
          = .error "Insufficient disk space on destination server" ∧
        (copy_file_based_storage_model env).1 = [.locateSource, .checkSpace] ∧
        DiskOp.download ∉ (copy_file_based_storage_model env).1 ∧
        DiskOp.upload ∉ (copy_file_based_storage_model env).1) ∧
    (∀ env : TransferEnv, DiskOp.checkSpace ∉ (copy_block_based_storage_model env).1) := by
  constructor
  · intro env h1 h2
    refine ⟨?_, ?_, ?_, ?_⟩ <;> simp [copy_file_based_storage_model, h1, h2]
  · intro env
    unfold copy_block_based_storage_model
    split
    · simp
    · split
      · simp
      · split
        · simp
        · split
          · simp
          · split
            · simp
            · dsimp only
              split
              · simp [List.mem_append, checkSpace_not_in_rename_ops env]
              · simp [List.mem_append, checkSpace_not_in_rename_ops env]

/-- Witness for C4 at concrete environments. -/
theorem C4_space_check_only_file_based_witness :
    c4_file_env.source_found = true ∧
    check_disk_space c4_file_env.df_available_gb c4_file_env.source_size_gb = false ∧
    (copy_file_based_storage_model c4_file_env).2
      = .error "Insufficient disk space on destination server" ∧
    DiskOp.checkSpace ∉ (copy_block_based_storage_model c4_block_env).1 := by
  have h1 : c4_file_env.source_found = true := rfl
  have h2 : check_disk_space c4_file_env.df_available_gb c4_file_env.source_size_gb = false := by
    norm_num [check_disk_space, python_int, c4_file_env]
  exact ⟨h1, h2, (C4_space_check_only_file_based.1 c4_file_env h1 h2).1,
    C4_space_check_only_file_based.2 c4_block_env⟩

/-- C5 counterexample: in the file-based path an upload whose SFTP rename
fails and whose shell mv fallback raises as well still completes successfully
with the unrenamed artifact, refuting the claim that a rename failing both
ways is treated as fatal. -/
theorem C5_counterexample :
    c5_file_env.sftp_rename_ok = false ∧ c5_file_env.shell_mv = .raised ∧
    (copy_file_based_storage_model c5_file_env).2
      = .ok "/var/lib/vz/images/104/vm-100-disk-0.qcow2.raw" := by
  refine ⟨rfl, rfl, ?_⟩
  have hc : check_disk_space (some 1000) 10 = true := by
    norm_num [check_disk_space, python_int]
  have hr : rename_target_filename "104" "vm-100-disk-0.qcow2.raw"
      = some "vm-104-disk-0.qcow2" := by
    decide
  simp [copy_file_based_storage_model, hc, c5_file_env, attempt_rename_file_based, hr]

/-- C5 amended: both paths rename the uploaded artifact to
vm-(vmid)-disk-(n).qcow2 with n parsed from the disk-(n) segment, falling back
to a shell mv when the SFTP rename fails; in the file-based path no rename
failure is fatal (the transfer completes with the unrenamed artifact), while
in the block-based path a raised shell fallback aborts the transfer. -/
theorem C5_rename_fallback_behaviour :
    rename_target_filename "104" "vm-100-disk-0.qcow2.raw" = some "vm-104-disk-0.qcow2" ∧
    rename_target_filename "77" "vm-100-disk-3.raw.raw" = some "vm-77-disk-3.qcow2" ∧
    (∀ (env : TransferEnv) (dd dp o nf : String),
      rename_target_filename env.vmid o = some nf →
      env.sftp_rename_ok = false → env.shell_mv = .ok →
      attempt_rename_file_based env dd dp o = dd ++ "/" ++ nf ∧
      attempt_rename_block_based env dd dp o = .ok (dd ++ "/" ++ nf)) ∧
    (∀ env : TransferEnv, env.source_found = true →
      check_disk_space env.df_available_gb env.source_size_gb = true →
      env.dest_dir_verify_ok = true → env.download_ok = true → env.upload_ok = true →
      env.sftp_rename_ok = false → env.shell_mv = .raised →
      (copy_file_based_storage_model env).2
        = .ok ("/var/lib/vz/images/" ++ env.vmid ++ "/" ++ env.disk_filename ++ ".raw")) ∧
    (∀ (env : TransferEnv) (nf : String),
      rename_target_filename env.vmid (env.disk_filename ++ ".raw") = some nf →
      env.source_found = true → env.is_block_device = true → env.dd_ok = true →
      env.download_ok = true → env.upload_ok = true →
      env.sftp_rename_ok = false → env.shell_mv = .raised →
      (copy_block_based_storage_model env).2 = .error "Failed to transfer temporary file") := by
  refine ⟨by decide, by decide, ?_, ?_, ?_⟩
  · intro env dd dp o nf hr hsftp hshell
    constructor <;> simp [attempt_rename_file_based, attempt_rename_block_based, hr, hsftp, hshell]
  · intro env h1 h2 h3 h4 h5 hsftp hshell
    simp only [copy_file_based_storage_model, h1, h2, h3, h4, h5]
    norm_num
    cases hr : rename_target_filename env.vmid (env.disk_filename ++ ".raw") <;>
      simp [attempt_rename_file_based, hr, hsftp, hshell]
  · intro env nf hr h1 h2 h3 h4 h5 hsftp hshell
    simp only [copy_block_based_storage_model, h1, h2, h3, h4, h5]
    norm_num
    simp [attempt_rename_block_based, hr, hsftp, hshell]

/-- Witness for C5 at concrete environments. -/
theorem C5_rename_fallback_behaviour_witness :
    attempt_rename_file_based c5_shell_ok_env "/var/lib/vz/images/104"
        "/var/lib/vz/images/104/vm-100-disk-0.qcow2.raw" "vm-100-disk-0.qcow2.raw"
      = "/var/lib/vz/images/104" ++ "/" ++ "vm-104-disk-0.qcow2" ∧
    (copy_file_based_storage_model c5_file_env).2
      = .ok ("/var/lib/vz/images/" ++ c5_file_env.vmid ++ "/"
          ++ c5_file_env.disk_filename ++ ".raw") ∧
    (copy_block_based_storage_model c5_block_env).2
      = .error "Failed to transfer temporary file" := by
  have hr : rename_target_filename c5_shell_ok_env.vmid "vm-100-disk-0.qcow2.raw"
      = some "vm-104-disk-0.qcow2" := by decide
  have hc : check_disk_space c5_file_env.df_available_gb c5_file_env.source_size_gb = true := by
    norm_num [check_disk_space, python_int, c5_file_env]
  have hrb : rename_target_filename c5_block_env.vmid (c5_block_env.disk_filename ++ ".raw")
      = some "vm-104-disk-0.qcow2" := by decide
  exact ⟨(C5_rename_fallback_behaviour.2.2.1 c5_shell_ok_env "/var/lib/vz/images/104"
      "/var/lib/vz/images/104/vm-100-disk-0.qcow2.raw" "vm-100-disk-0.qcow2.raw"
      "vm-104-disk-0.qcow2" hr rfl rfl).1,
    C5_rename_fallback_behaviour.2.2.2.1 c5_file_env rfl hc rfl rfl rfl rfl rfl,
    C5_rename_fallback_behaviour.2.2.2.2 c5_block_env "vm-104-disk-0.qcow2" hrb rfl rfl rfl rfl
      rfl rfl rfl⟩
